import Mathlib

/-!
Verification of `deepreg/model/network/ddf_dvf.py` (DeepReg).

The file embeds the three functions of the source module —
`ddf_dvf_forward`, `ddf_dvf_add_loss_metric` and `build_ddf_dvf_model` —
as executable Lean definitions and proves the claimed properties of the
computation-graph orchestration.

Tensors are modelled as a symbolic term algebra: the external layers
(`layer.Resize3d`, `layer.IntDVF`, `layer.Warping`, `tf.expand_dims`,
`tf.concat`, `tf.squeeze`) appear as opaque constructors recording exactly
which operation was applied with which parameters, since the module under
verification only orchestrates them.  A shape-inference function mirrors
the static-shape bookkeeping documented for each operation.  The backbone
is a parameter of type `Tensor → Tensor`.

Loss and metric values are likewise a symbolic algebra over the opaque
external loss functions (`local_displacement_energy`, `dissimilarity_fn`,
`get_dissimilarity_fn`, `dice_score`, `compute_centroid_distance`,
`foreground_proportion`); a Keras model is a record of its input mapping,
output mapping, name, added losses and added metrics.  Python dictionary
lookups that can raise `KeyError`, and passing `None` where a tensor is
required, are modelled with `Except String`.
-/

namespace DeepReg

/-- Configuration dictionary: string keys to numeric values (the assembler
only ever inspects the numeric "weight" entries; all other entries are
carried opaquely into the external loss functions). -/
abbrev Dict : Type := List (String × Rat)

/-- Python `d[k]` as a fallible lookup (first matching key). -/
def dictGet (k : String) : Dict → Option Rat
  | [] => none
  | (k2, v) :: rest => if k2 = k then some v else dictGet k rest

/-- Symbolic tensors: graph nodes recording which operation produced them.
`input` carries the declared static shape.  `resize3d size t` is
`layer.Resize3d(size=size)(inputs=t)`; `intDVF size t` is
`layer.IntDVF(fixed_image_size=size)(t)`; `gridRef size` is the
`grid_ref` attribute of `layer.Warping(fixed_image_size=size)` and
`warp size d v` is that warping layer applied to `inputs=[d, v]`;
`backboneApp name t` is the backbone built for method `name` applied
to `t`. -/
inductive Tensor : Type where
  | input : String → List Nat → Tensor
  | expand_dims : Tensor → Nat → Tensor
  | resize3d : List Nat → Tensor → Tensor
  | concat2 : Tensor → Tensor → Nat → Tensor
  | intDVF : List Nat → Tensor → Tensor
  | gridRef : List Nat → Tensor
  | warp : List Nat → Tensor → Tensor → Tensor
  | squeeze : Tensor → Nat → Tensor
  | backboneApp : String → Tensor → Tensor
deriving DecidableEq, Repr

/-- Insert a value at position `n` of a list (`tf.expand_dims` axis
arithmetic); fails when the axis is out of range. -/
def insertAt : Nat → Nat → List Nat → Option (List Nat)
  | 0, x, l => some (x :: l)
  | n + 1, x, y :: l => (insertAt n x l).map (fun r => y :: r)
  | _ + 1, _, [] => none

/-- Remove position `n` of a list provided the entry equals 1
(`tf.squeeze` with an explicit axis requires a size-1 axis). -/
def removeAt : Nat → List Nat → Option (List Nat)
  | _, [] => none
  | 0, d :: l => if d = 1 then some l else none
  | n + 1, d :: l => (removeAt n l).map (fun r => d :: r)

/-- Shape of the concatenation of two shapes along axis `a`: all other
axes must agree, the concatenation axis adds up. -/
def concatShape : Nat → List Nat → List Nat → Option (List Nat)
  | 0, d :: s, e :: t => if s = t then some ((d + e) :: s) else none
  | n + 1, d :: s, e :: t =>
      if d = e then (concatShape n s t).map (fun r => d :: r) else none
  | _, _, _ => none

/-- Static shape inference over the symbolic tensor graph, following the
documented contract of each operation.  The rules for the external layers
are modelled from the spec: `Resize3d` maps `(batch, d1, d2, d3, c)` to
`(batch, size, c)`; `IntDVF` preserves its `(batch, size, 3)` input shape;
`Warping(size).grid_ref` has shape `(1, size, 3)` (batch axis of size 1)
and the warping of a `(batch, m*) ` volume by a `(batch, size, 3)` field
has shape `(batch, size)`; the backbone maps a 5-dimensional volume to a
3-channel field over the same spatial grid. -/
def shape : Tensor → Option (List Nat)
  | Tensor.input _ s => some s
  | Tensor.expand_dims t a => (shape t).bind (insertAt a 1)
  | Tensor.resize3d size t =>
      match shape t with
      | some [b, _, _, _, c] =>
          if size.length = 3 then some (b :: (size ++ [c])) else none
      | _ => none
  | Tensor.concat2 t u a =>
      match shape t, shape u with
      | some s, some s2 => concatShape a s s2
      | _, _ => none
  | Tensor.intDVF size t =>
      match shape t with
      | some (b :: rest) => if rest = size ++ [3] then some (b :: rest) else none
      | _ => none
  | Tensor.gridRef size => some (1 :: (size ++ [3]))
  | Tensor.warp size d v =>
      match shape d, shape v with
      | some sd, some (b :: _) =>
          if sd = b :: (size ++ [3]) then some (b :: size) else none
      | _, _ => none
  | Tensor.squeeze t a => (shape t).bind (removeAt a)
  | Tensor.backboneApp _ t =>
      match shape t with
      | some [b, d1, d2, d3, _] => some [b, d1, d2, d3, 3]
      | _ => none

/-- Number of `Resize3d` (size-adapter) applications occurring in the
graph that produced a tensor. -/
def countResize : Tensor → Nat
  | Tensor.input _ _ => 0
  | Tensor.expand_dims t _ => countResize t
  | Tensor.resize3d _ t => countResize t + 1
  | Tensor.concat2 t u _ => countResize t + countResize u
  | Tensor.intDVF _ t => countResize t
  | Tensor.gridRef _ => 0
  | Tensor.warp _ d v => countResize d + countResize v
  | Tensor.squeeze t _ => countResize t
  | Tensor.backboneApp _ t => countResize t

/-- Symbolic scalar loss/metric values: applications of the opaque
external loss functions, `tf.reduce_mean`, and scaling by a weight. -/
inductive LossVal : Type where
  | reduceMean : LossVal → LossVal
  | localDisplacementEnergy : Tensor → Dict → LossVal
  | imageDissimilarity : Tensor → Tensor → Dict → LossVal
  | labelDissimilarity : Dict → Tensor → Tensor → LossVal
  | diceScore : Tensor → Tensor → Bool → LossVal
  | centroidDistance : Tensor → Tensor → Tensor → LossVal
  | foregroundProportion : Tensor → LossVal
  | smul : LossVal → Rat → LossVal
deriving DecidableEq, Repr

/-- A Keras model: the input and output mappings (Python dictionaries
whose values may be `None`), the model name, and the lists of losses and
named metrics attached by `add_loss` / `add_metric`. -/
structure KerasModel : Type where
  inputs : List (String × Option Tensor)
  outputs : List (String × Option Tensor)
  name : String
  losses : List LossVal
  metrics : List (String × LossVal)
deriving DecidableEq, Repr

/-- `model.add_loss(l)`: appends to the model's losses. -/
def add_loss (m : KerasModel) (l : LossVal) : KerasModel :=
  { m with losses := m.losses ++ [l] }

/-- `model.add_metric(v, name=n, aggregation="mean")`: appends a named
metric; metrics are observational and never enter `losses`. -/
def add_metric (m : KerasModel) (n : String) (v : LossVal) : KerasModel :=
  { m with metrics := m.metrics ++ [(n, v)] }

/-- Result of `ddf_dvf_forward`: the tuple
`(dvf, ddf, pred_fixed_image, pred_fixed_label, grid_fixed)`. -/
structure ForwardOut : Type where
  dvf : Option Tensor
  ddf : Tensor
  pred_fixed_image : Tensor
  pred_fixed_label : Option Tensor
  grid_fixed : Tensor
deriving DecidableEq, Repr

/-- Embedding of `ddf_dvf_forward` (ddf_dvf.py lines 16-78): expand both
images to single-channel form, resize the moving image when the sizes
differ, concatenate moving then fixed along axis 4, run the backbone,
branch on `output_dvf` (dvf mode integrates the raw field with `IntDVF`),
build one `Warping` layer for the fixed size, and warp the image and —
when present — the label with the same displacement field. -/
def ddf_dvf_forward (backbone : Tensor → Tensor)
    (moving_image fixed_image : Tensor) (moving_label : Option Tensor)
    (moving_image_size fixed_image_size : List Nat)
    (output_dvf : Bool) : ForwardOut :=
  let moving_image1 := Tensor.expand_dims moving_image 4
  let fixed_image1 := Tensor.expand_dims fixed_image 4
  let moving_image2 :=
    if moving_image_size ≠ fixed_image_size then
      Tensor.resize3d fixed_image_size moving_image1
    else moving_image1
  let inputs := Tensor.concat2 moving_image2 fixed_image1 4
  let backbone_out := backbone inputs
  let dvfddf : Option Tensor × Tensor :=
    if output_dvf then
      (some backbone_out, Tensor.intDVF fixed_image_size backbone_out)
    else
      (none, backbone_out)
  let grid_fixed := Tensor.squeeze (Tensor.gridRef fixed_image_size) 0
  let pred_fixed_image :=
    Tensor.warp fixed_image_size dvfddf.2 (Tensor.squeeze moving_image2 4)
  let pred_fixed_label :=
    moving_label.map (fun l => Tensor.warp fixed_image_size dvfddf.2 l)
  { dvf := dvfddf.1, ddf := dvfddf.2, pred_fixed_image := pred_fixed_image,
    pred_fixed_label := pred_fixed_label, grid_fixed := grid_fixed }

/-- The input handed to the backbone by the forward pass (ddf_dvf.py
lines 42-60): the channel-expanded, conditionally resized moving image
concatenated with the channel-expanded fixed image along axis 4. -/
def backbone_input (moving_image fixed_image : Tensor)
    (moving_image_size fixed_image_size : List Nat) : Tensor :=
  let moving_image1 := Tensor.expand_dims moving_image 4
  let fixed_image1 := Tensor.expand_dims fixed_image 4
  let moving_image2 :=
    if moving_image_size ≠ fixed_image_size then
      Tensor.resize3d fixed_image_size moving_image1
    else moving_image1
  Tensor.concat2 moving_image2 fixed_image1 4

/-- Loss configuration (spec section 6): the `regularization` dictionary,
the `dissimilarity.image` dictionary and the `dissimilarity.label`
dictionary. -/
structure LossConfig : Type where
  regularization : Dict
  dissimilarity_image : Dict
  dissimilarity_label : Dict
deriving DecidableEq, Repr

/-- Model configuration: the assembler only inspects `method`. -/
structure ModelConfig : Type where
  method : String
deriving DecidableEq, Repr

/-- Embedding of `ddf_dvf_add_loss_metric` (ddf_dvf.py lines 81-175).
The regularization term is always attached (no guard on its weight); the
image term is attached only when its weight is strictly positive; the
label term and the five diagnostic metrics are attached only when
`fixed_label` is present, and `weighted_loss_label` is the raw
`loss_label` (the weight is folded into the dissimilarity function).
A missing "weight" key is a Python `KeyError`; dereferencing a `None`
`pred_fixed_label` inside the label branch is a Python `TypeError`; both
are modelled as `Except.error`. -/
def ddf_dvf_add_loss_metric (model : KerasModel)
    (ddf grid_fixed fixed_image : Tensor) (fixed_label : Option Tensor)
    (pred_fixed_image : Tensor) (pred_fixed_label : Option Tensor)
    (loss_config : LossConfig) : Except String KerasModel :=
  let loss_reg := LossVal.reduceMean
    (LossVal.localDisplacementEnergy ddf loss_config.regularization)
  match dictGet "weight" loss_config.regularization with
  | none => Except.error "KeyError: weight (regularization)"
  | some reg_weight =>
    let weighted_loss_reg := LossVal.smul loss_reg reg_weight
    let model1 := add_loss model weighted_loss_reg
    let model2 := add_metric model1 "loss/regularization" loss_reg
    let model3 := add_metric model2 "loss/weighted_regularization" weighted_loss_reg
    match dictGet "weight" loss_config.dissimilarity_image with
    | none => Except.error "KeyError: weight (dissimilarity image)"
    | some image_weight =>
      let model4 :=
        if 0 < image_weight then
          let loss_image := LossVal.reduceMean
            (LossVal.imageDissimilarity fixed_image pred_fixed_image
              loss_config.dissimilarity_image)
          let weighted_loss_image := LossVal.smul loss_image image_weight
          add_metric
            (add_metric (add_loss model3 weighted_loss_image)
              "loss/image_dissimilarity" loss_image)
            "loss/weighted_image_dissimilarity" weighted_loss_image
        else model3
      match fixed_label with
      | none => Except.ok model4
      | some fl =>
        match pred_fixed_label with
        | none => Except.error "TypeError: pred_fixed_label is None"
        | some pfl =>
          let loss_label := LossVal.reduceMean
            (LossVal.labelDissimilarity loss_config.dissimilarity_label fl pfl)
          let weighted_loss_label := loss_label
          let model5 := add_loss model4 weighted_loss_label
          let model6 := add_metric model5 "loss/label_dissimilarity" loss_label
          let model7 :=
            add_metric model6 "loss/weighted_label_dissimilarity" weighted_loss_label
          let dice_binary := LossVal.diceScore fl pfl true
          let dice_float := LossVal.diceScore fl pfl false
          let tre := LossVal.centroidDistance fl pfl grid_fixed
          let foreground_label := LossVal.foregroundProportion fl
          let foreground_pred := LossVal.foregroundProportion pfl
          let model8 := add_metric model7 "metric/dice_binary" dice_binary
          let model9 := add_metric model8 "metric/dice_float" dice_float
          let model10 := add_metric model9 "metric/tre" tre
          let model11 := add_metric model10 "metric/foreground_label" foreground_label
          Except.ok (add_metric model11 "metric/foreground_pred" foreground_pred)

/-- Modelled from the spec: `build_inputs` (deepreg.model.network.util,
not under src/) returns the `moving_image`, `fixed_image` and `indices`
input tensors always and the `moving_label` / `fixed_label` input tensors
exactly in the labeled case, with the batch-first shapes of section 3 of
the spec. -/
def build_inputs (moving_image_size fixed_image_size : List Nat)
    (index_size batch_size : Nat) (labeled : Bool) :
    Tensor × Tensor × Option Tensor × Option Tensor × Tensor :=
  ( Tensor.input "moving_image" (batch_size :: moving_image_size),
    Tensor.input "fixed_image" (batch_size :: fixed_image_size),
    if labeled
      then some (Tensor.input "moving_label" (batch_size :: moving_image_size))
      else none,
    if labeled
      then some (Tensor.input "fixed_label" (batch_size :: fixed_image_size))
      else none,
    Tensor.input "indices" [batch_size, index_size] )

/-- Modelled from the spec: `build_backbone` (deepreg.model.network.util,
not under src/) builds the opaque backbone for the configured method name
— an external function mapping a 2-channel volume of the fixed spatial
shape to a 3-channel field of the same spatial shape. -/
def build_backbone (method_name : String) : Tensor → Tensor :=
  fun t => Tensor.backboneApp method_name t

/-- The `output_dvf` flag passed by `build_ddf_dvf_model` to the forward
pass (ddf_dvf.py line 223): `model_config["method"] == "dvf"`. -/
def output_dvf_flag (model_config : ModelConfig) : Bool :=
  model_config.method == "dvf"

/-- Embedding of `build_ddf_dvf_model` (ddf_dvf.py lines 178-264): build
the inputs and the backbone, run the forward pass with
`output_dvf = (method == "dvf")`, assemble the input and output mappings
(`ddf` always, `dvf` when present, label entries in the labeled branch),
and attach the losses and metrics.  The helpers `add_ddf_loss`,
`add_image_loss` and `add_label_loss` (deepreg.model.network.util, not
under src/) are modelled from the spec as attaching exactly the terms of
`ddf_dvf_add_loss_metric` (spec section 4.6). -/
def build_ddf_dvf_model (moving_image_size fixed_image_size : List Nat)
    (index_size : Nat) (labeled : Bool) (batch_size : Nat)
    (model_config : ModelConfig) (loss_config : LossConfig) :
    Except String KerasModel :=
  let parts := build_inputs moving_image_size fixed_image_size index_size
    batch_size labeled
  let moving_image := parts.1
  let fixed_image := parts.2.1
  let moving_label := parts.2.2.1
  let fixed_label := parts.2.2.2.1
  let indices := parts.2.2.2.2
  let backbone := build_backbone model_config.method
  let fwd := ddf_dvf_forward backbone moving_image fixed_image moving_label
    moving_image_size fixed_image_size (output_dvf_flag model_config)
  let inputs0 := [("moving_image", some moving_image),
                  ("fixed_image", some fixed_image),
                  ("indices", some indices)]
  let outputs0 := [("ddf", some fwd.ddf)]
  let outputs1 := match fwd.dvf with
    | some dvf => outputs0 ++ [("dvf", some dvf)]
    | none => outputs0
  let model_name := model_config.method.toUpper ++ "RegistrationModel"
  let model : KerasModel :=
    match moving_label with
    | none =>
      { inputs := inputs0, outputs := outputs1,
        name := model_name ++ "WithoutLabel", losses := [], metrics := [] }
    | some ml =>
      { inputs := inputs0 ++ [("moving_label", some ml),
                              ("fixed_label", fixed_label)],
        outputs := outputs1 ++ [("pred_fixed_label", fwd.pred_fixed_label)],
        name := model_name ++ "WithLabel", losses := [], metrics := [] }
  ddf_dvf_add_loss_metric model fwd.ddf fwd.grid_fixed fixed_image fixed_label
    fwd.pred_fixed_image fwd.pred_fixed_label loss_config

/-- Whether a fallible model build succeeded. -/
def isOk : Except String KerasModel → Bool
  | Except.ok _ => true
  | Except.error _ => false

/-- Losses of a fallible model build (empty on failure). -/
def lossesOf : Except String KerasModel → List LossVal
  | Except.ok m => m.losses
  | Except.error _ => []

/-- Metrics of a fallible model build (empty on failure). -/
def metricsOf : Except String KerasModel → List (String × LossVal)
  | Except.ok m => m.metrics
  | Except.error _ => []

/-- Input mapping of a fallible model build (empty on failure). -/
def inputsOf : Except String KerasModel → List (String × Option Tensor)
  | Except.ok m => m.inputs
  | Except.error _ => []

/-- Output mapping of a fallible model build (empty on failure). -/
def outputsOf : Except String KerasModel → List (String × Option Tensor)
  | Except.ok m => m.outputs
  | Except.error _ => []

/-- A key is present in a Python-dictionary-like mapping. -/
def hasKey (k : String) (d : List (String × Option Tensor)) : Prop :=
  ∃ v, (k, v) ∈ d

/-- C1: in the forward pass, when `output_dvf` is true the returned
velocity field is exactly the backbone's raw output and the displacement
field is `IntDVF` applied to it; when `output_dvf` is false the
displacement field is exactly the raw output and the velocity field is
`None`; the velocity field is present precisely when `output_dvf` holds,
and the `output_dvf` flag passed by `build_ddf_dvf_model` is true
precisely when `model_config["method"]` equals "dvf". -/
theorem C1_dvf_branching (backbone : Tensor → Tensor)
    (moving_image fixed_image : Tensor) (moving_label : Option Tensor)
    (moving_image_size fixed_image_size : List Nat) (output_dvf : Bool) :
    (output_dvf = true →
      (ddf_dvf_forward backbone moving_image fixed_image moving_label
          moving_image_size fixed_image_size output_dvf).dvf =
        some (backbone (backbone_input moving_image fixed_image
          moving_image_size fixed_image_size)) ∧
      (ddf_dvf_forward backbone moving_image fixed_image moving_label
          moving_image_size fixed_image_size output_dvf).ddf =
        Tensor.intDVF fixed_image_size (backbone (backbone_input moving_image
          fixed_image moving_image_size fixed_image_size))) ∧
    (output_dvf = false →
      (ddf_dvf_forward backbone moving_image fixed_image moving_label
          moving_image_size fixed_image_size output_dvf).ddf =
        backbone (backbone_input moving_image fixed_image
          moving_image_size fixed_image_size) ∧
      (ddf_dvf_forward backbone moving_image fixed_image moving_label
          moving_image_size fixed_image_size output_dvf).dvf = none) ∧
    ((ddf_dvf_forward backbone moving_image fixed_image moving_label
        moving_image_size fixed_image_size output_dvf).dvf).isSome = output_dvf ∧
    (∀ model_config : ModelConfig,
      output_dvf_flag model_config = true ↔ model_config.method = "dvf") := by
  cases output_dvf <;>
    simp [ddf_dvf_forward, backbone_input, output_dvf_flag]

/-- Witness for C1 at a concrete input: identity backbone, dvf mode. -/
theorem C1_dvf_branching_witness :
    (ddf_dvf_forward (fun t => t) (Tensor.input "m" [1, 2, 2, 2])
        (Tensor.input "f" [1, 2, 2, 2]) none [2, 2, 2] [2, 2, 2] true).dvf =
      some (backbone_input (Tensor.input "m" [1, 2, 2, 2])
        (Tensor.input "f" [1, 2, 2, 2]) [2, 2, 2] [2, 2, 2]) :=
  ((C1_dvf_branching (fun t => t) (Tensor.input "m" [1, 2, 2, 2])
    (Tensor.input "f" [1, 2, 2, 2]) none [2, 2, 2] [2, 2, 2] true).1 rfl).1

/-- C5: the moving image is resized precisely when the two size tuples
differ: with equal sizes the channel-expanded moving image reaches both
the backbone input and the warping unchanged and the backbone input
contains no size-adapter application beyond those already inside the
input tensors; with different sizes a single `Resize3d` to the fixed
size is applied. -/
theorem C5_resize_iff_sizes_differ (backbone : Tensor → Tensor)
    (moving_image fixed_image : Tensor) (moving_label : Option Tensor)
    (moving_image_size fixed_image_size : List Nat) (output_dvf : Bool) :
    (moving_image_size = fixed_image_size →
      backbone_input moving_image fixed_image moving_image_size
          fixed_image_size =
        Tensor.concat2 (Tensor.expand_dims moving_image 4)
          (Tensor.expand_dims fixed_image 4) 4 ∧
      (ddf_dvf_forward backbone moving_image fixed_image moving_label
          moving_image_size fixed_image_size output_dvf).pred_fixed_image =
        Tensor.warp fixed_image_size
          (ddf_dvf_forward backbone moving_image fixed_image moving_label
            moving_image_size fixed_image_size output_dvf).ddf
          (Tensor.squeeze (Tensor.expand_dims moving_image 4) 4) ∧
      countResize (backbone_input moving_image fixed_image moving_image_size
          fixed_image_size) =
        countResize moving_image + countResize fixed_image) ∧
    (moving_image_size ≠ fixed_image_size →
      backbone_input moving_image fixed_image moving_image_size
          fixed_image_size =
        Tensor.concat2
          (Tensor.resize3d fixed_image_size (Tensor.expand_dims moving_image 4))
          (Tensor.expand_dims fixed_image 4) 4 ∧
      (ddf_dvf_forward backbone moving_image fixed_image moving_label
          moving_image_size fixed_image_size output_dvf).pred_fixed_image =
        Tensor.warp fixed_image_size
          (ddf_dvf_forward backbone moving_image fixed_image moving_label
            moving_image_size fixed_image_size output_dvf).ddf
          (Tensor.squeeze
            (Tensor.resize3d fixed_image_size (Tensor.expand_dims moving_image 4)) 4) ∧
      countResize (backbone_input moving_image fixed_image moving_image_size
          fixed_image_size) =
        countResize moving_image + countResize fixed_image + 1) := by
  constructor
  · intro h
    subst h
    simp [ddf_dvf_forward, backbone_input, countResize]
  · intro h
    simp [ddf_dvf_forward, backbone_input, countResize, h]
    omega

/-- Witness for C5 at a concrete input with equal sizes: the backbone
input is the plain concatenation, with no resize node. -/
theorem C5_resize_iff_sizes_differ_witness :
    backbone_input (Tensor.input "m" [1, 2, 2, 2]) (Tensor.input "f" [1, 2, 2, 2])
        [2, 2, 2] [2, 2, 2] =
      Tensor.concat2 (Tensor.expand_dims (Tensor.input "m" [1, 2, 2, 2]) 4)
        (Tensor.expand_dims (Tensor.input "f" [1, 2, 2, 2]) 4) 4 :=
  ((C5_resize_iff_sizes_differ (fun t => t) (Tensor.input "m" [1, 2, 2, 2])
    (Tensor.input "f" [1, 2, 2, 2]) none [2, 2, 2] [2, 2, 2] false).1 rfl).1

/-- C6: a supplied moving label is warped with exactly the same
displacement field and the same warping layer (same fixed size) as the
moving image, but verbatim at its original resolution — no size adapter
is ever applied to it, even when the sizes differ; with no moving label
the warped label is `None`. -/
theorem C6_label_warp (backbone : Tensor → Tensor)
    (moving_image fixed_image l : Tensor)
    (moving_image_size fixed_image_size : List Nat) (output_dvf : Bool) :
    (ddf_dvf_forward backbone moving_image fixed_image (some l)
        moving_image_size fixed_image_size output_dvf).pred_fixed_label =
      some (Tensor.warp fixed_image_size
        (ddf_dvf_forward backbone moving_image fixed_image (some l)
          moving_image_size fixed_image_size output_dvf).ddf l) ∧
    (ddf_dvf_forward backbone moving_image fixed_image (some l)
        moving_image_size fixed_image_size output_dvf).pred_fixed_image =
      Tensor.warp fixed_image_size
        (ddf_dvf_forward backbone moving_image fixed_image (some l)
          moving_image_size fixed_image_size output_dvf).ddf
        (Tensor.squeeze
          (if moving_image_size ≠ fixed_image_size then
            Tensor.resize3d fixed_image_size (Tensor.expand_dims moving_image 4)
          else Tensor.expand_dims moving_image 4) 4) ∧
    (ddf_dvf_forward backbone moving_image fixed_image none
        moving_image_size fixed_image_size output_dvf).pred_fixed_label = none := by
  cases output_dvf <;> simp [ddf_dvf_forward]

/-- C7: the backbone consumes the conditionally resized single-channel
moving image concatenated with the single-channel fixed image along the
channel axis, in that order, forming a 2-channel volume of the fixed
spatial shape, and its 3-channel output is used unchanged as the raw
field (the ddf in ddf mode, the dvf in dvf mode). -/
theorem C7_backbone_adapter (backbone : Tensor → Tensor) (name : String)
    (moving_image fixed_image : Tensor) (moving_label : Option Tensor)
    (moving_image_size fixed_image_size : List Nat)
    (b0 m1 m2 m3 f1 f2 f3 : Nat) :
    (ddf_dvf_forward backbone moving_image fixed_image moving_label
        moving_image_size fixed_image_size false).ddf =
      backbone (backbone_input moving_image fixed_image moving_image_size
        fixed_image_size) ∧
    (ddf_dvf_forward backbone moving_image fixed_image moving_label
        moving_image_size fixed_image_size true).dvf =
      some (backbone (backbone_input moving_image fixed_image moving_image_size
        fixed_image_size)) ∧
    (shape moving_image = some [b0, m1, m2, m3] →
      shape fixed_image = some [b0, f1, f2, f3] →
      moving_image_size = [m1, m2, m3] → fixed_image_size = [f1, f2, f3] →
      shape (backbone_input moving_image fixed_image moving_image_size
          fixed_image_size) = some [b0, f1, f2, f3, 2] ∧
      shape (Tensor.backboneApp name (backbone_input moving_image fixed_image
          moving_image_size fixed_image_size)) = some [b0, f1, f2, f3, 3]) := by
  refine ⟨by simp [ddf_dvf_forward, backbone_input],
          by simp [ddf_dvf_forward, backbone_input], ?_⟩
  intro hm hf hms hfs
  subst hms hfs
  by_cases hmf : ([m1, m2, m3] : List Nat) = [f1, f2, f3]
  · rw [backbone_input, if_neg (by simp [hmf])]
    obtain ⟨h1, h2, h3⟩ : m1 = f1 ∧ m2 = f2 ∧ m3 = f3 := by
      simpa using hmf
    subst h1 h2 h3
    simp [shape, insertAt, concatShape, hm, hf]
  · rw [backbone_input, if_pos (by simp [hmf])]
    simp [shape, insertAt, concatShape, hm, hf]

/-- Witness for C7 at a concrete input with differing sizes: the
backbone input has the fixed spatial shape and 2 channels, and the
backbone output contract gives 3 channels. -/
theorem C7_backbone_adapter_witness :
    shape (backbone_input (Tensor.input "m" [1, 2, 2, 2])
        (Tensor.input "f" [1, 4, 4, 4]) [2, 2, 2] [4, 4, 4]) =
      some [1, 4, 4, 4, 2] :=
  ((C7_backbone_adapter (fun t => t) "local" (Tensor.input "m" [1, 2, 2, 2])
    (Tensor.input "f" [1, 4, 4, 4]) none [2, 2, 2] [4, 4, 4]
    1 2 2 2 4 4 4).2.2 rfl rfl rfl rfl).1

/-- C9: the forward pass is a pure deterministic function — two runs
with pointwise-equal backbones and equal inputs produce equal output
tuples; the image and label warps are built from the same warping layer
over the fixed grid, and the returned fixed grid is that layer's
reference grid with its size-1 batch axis removed (its shape drops the
leading 1). -/
theorem C9_forward_deterministic (backbone1 backbone2 : Tensor → Tensor)
    (moving_image fixed_image : Tensor) (moving_label : Option Tensor)
    (moving_image_size fixed_image_size : List Nat) (output_dvf : Bool)
    (hb : ∀ t, backbone1 t = backbone2 t) :
    ddf_dvf_forward backbone1 moving_image fixed_image moving_label
        moving_image_size fixed_image_size output_dvf =
      ddf_dvf_forward backbone2 moving_image fixed_image moving_label
        moving_image_size fixed_image_size output_dvf ∧
    (ddf_dvf_forward backbone1 moving_image fixed_image moving_label
        moving_image_size fixed_image_size output_dvf).grid_fixed =
      Tensor.squeeze (Tensor.gridRef fixed_image_size) 0 ∧
    shape (Tensor.gridRef fixed_image_size) =
      some (1 :: (fixed_image_size ++ [3])) ∧
    shape ((ddf_dvf_forward backbone1 moving_image fixed_image moving_label
        moving_image_size fixed_image_size output_dvf).grid_fixed) =
      some (fixed_image_size ++ [3]) ∧
    (∀ l, (ddf_dvf_forward backbone1 moving_image fixed_image (some l)
        moving_image_size fixed_image_size output_dvf).pred_fixed_label =
      some (Tensor.warp fixed_image_size
        (ddf_dvf_forward backbone1 moving_image fixed_image (some l)
          moving_image_size fixed_image_size output_dvf).ddf l)) := by
  cases output_dvf <;>
    simp [ddf_dvf_forward, shape, removeAt, hb]

/-- Witness for C9 at a concrete input: the returned fixed grid is the
squeezed reference grid. -/
theorem C9_forward_deterministic_witness :
    (ddf_dvf_forward (fun t => t) (Tensor.input "m" [1, 2, 2, 2])
        (Tensor.input "f" [1, 2, 2, 2]) none [2, 2, 2] [2, 2, 2]
        false).grid_fixed =
      Tensor.squeeze (Tensor.gridRef [2, 2, 2]) 0 :=
  (C9_forward_deterministic (fun t => t) (fun t => t)
    (Tensor.input "m" [1, 2, 2, 2]) (Tensor.input "f" [1, 2, 2, 2]) none
    [2, 2, 2] [2, 2, 2] false (fun _ => rfl)).2.1

/-- Helper: a successful run of the loss/metric assembler only appends
losses and metrics; the input mapping, output mapping and name of the
model are unchanged. -/
theorem add_loss_metric_keeps_io (model : KerasModel)
    (ddf grid_fixed fixed_image : Tensor) (fixed_label : Option Tensor)
    (pred_fixed_image : Tensor) (pred_fixed_label : Option Tensor)
    (loss_config : LossConfig) (m2 : KerasModel)
    (h : ddf_dvf_add_loss_metric model ddf grid_fixed fixed_image fixed_label
      pred_fixed_image pred_fixed_label loss_config = Except.ok m2) :
    m2.inputs = model.inputs ∧ m2.outputs = model.outputs ∧
      m2.name = model.name := by
  unfold ddf_dvf_add_loss_metric at h
  repeat' split at h
  all_goals simp_all [add_loss, add_metric]
  all_goals (obtain rfl := h; simp [add_loss, add_metric])

/-- C8: the assembler fails fast on a malformed loss configuration — a
missing "weight" key under `regularization`, or (with that one present)
a missing "weight" key under `dissimilarity.image`, aborts construction
with a key-lookup error instead of building a partial loss graph. -/
theorem C8_missing_weight_fails (model : KerasModel)
    (ddf grid_fixed fixed_image : Tensor) (fixed_label : Option Tensor)
    (pred_fixed_image : Tensor) (pred_fixed_label : Option Tensor)
    (cfg : LossConfig) :
    (dictGet "weight" cfg.regularization = none →
      ddf_dvf_add_loss_metric model ddf grid_fixed fixed_image fixed_label
          pred_fixed_image pred_fixed_label cfg =
        Except.error "KeyError: weight (regularization)") ∧
    (∀ wr, dictGet "weight" cfg.regularization = some wr →
      dictGet "weight" cfg.dissimilarity_image = none →
      ddf_dvf_add_loss_metric model ddf grid_fixed fixed_image fixed_label
          pred_fixed_image pred_fixed_label cfg =
        Except.error "KeyError: weight (dissimilarity image)") := by
  constructor
  · intro h
    unfold ddf_dvf_add_loss_metric
    rw [h]
  · intro wr hwr hwi
    unfold ddf_dvf_add_loss_metric
    rw [hwr, hwi]

/-- Witness for C8 at a concrete input: an empty regularization
dictionary aborts the assembler. -/
theorem C8_missing_weight_fails_witness :
    ddf_dvf_add_loss_metric
        { inputs := [], outputs := [], name := "m", losses := [], metrics := [] }
        (Tensor.input "d" [1, 2, 2, 2, 3]) (Tensor.input "g" [2, 2, 2, 3])
        (Tensor.input "f" [1, 2, 2, 2]) none (Tensor.input "p" [1, 2, 2, 2]) none
        { regularization := [], dissimilarity_image := [("weight", 1)],
          dissimilarity_label := [] } =
      Except.error "KeyError: weight (regularization)" :=
  (C8_missing_weight_fails
    { inputs := [], outputs := [], name := "m", losses := [], metrics := [] }
    (Tensor.input "d" [1, 2, 2, 2, 3]) (Tensor.input "g" [2, 2, 2, 3])
    (Tensor.input "f" [1, 2, 2, 2]) none (Tensor.input "p" [1, 2, 2, 2]) none
    { regularization := [], dissimilarity_image := [("weight", 1)],
      dissimilarity_label := [] }).1 rfl

/-- C10: the label branch dereferences `pred_fixed_label` only under the
guard `fixed_label is not None`, so under the precondition that a present
`fixed_label` comes with a present `pred_fixed_label` the assembler never
fails with the `None`-dereference error; and the model builder maintains
this invariant — the `fixed_label` produced by `build_inputs` is present
exactly when the warped `pred_fixed_label` produced by the forward pass
on those inputs is present (both present in labeled mode, both absent in
unlabeled mode). -/
theorem C10_label_deref_safe (model : KerasModel)
    (ddf grid_fixed fixed_image : Tensor) (fixed_label : Option Tensor)
    (pred_fixed_image : Tensor) (pred_fixed_label : Option Tensor)
    (cfg : LossConfig)
    (hpre : fixed_label.isSome = true → pred_fixed_label.isSome = true) :
    ddf_dvf_add_loss_metric model ddf grid_fixed fixed_image fixed_label
        pred_fixed_image pred_fixed_label cfg ≠
      Except.error "TypeError: pred_fixed_label is None" ∧
    (∀ (moving_image_size fixed_image_size : List Nat) (index_size batch_size : Nat)
        (labeled : Bool) (mcfg : ModelConfig),
      ((build_inputs moving_image_size fixed_image_size index_size batch_size
          labeled).2.2.2.1).isSome =
        ((ddf_dvf_forward (build_backbone mcfg.method)
            (build_inputs moving_image_size fixed_image_size index_size
              batch_size labeled).1
            (build_inputs moving_image_size fixed_image_size index_size
              batch_size labeled).2.1
            (build_inputs moving_image_size fixed_image_size index_size
              batch_size labeled).2.2.1
            moving_image_size fixed_image_size
            (output_dvf_flag mcfg)).pred_fixed_label).isSome) := by
  constructor
  · unfold ddf_dvf_add_loss_metric
    cases hr : dictGet "weight" cfg.regularization with
    | none => simp
    | some wr =>
      cases hi : dictGet "weight" cfg.dissimilarity_image with
      | none => simp
      | some wi =>
        cases hfl : fixed_label with
        | none => simp
        | some fl =>
          cases hpfl : pred_fixed_label with
          | none => simp_all
          | some pfl => simp
  · intro ms fs idx bs labeled mcfg
    cases labeled <;> cases hflag : output_dvf_flag mcfg <;>
      simp [build_inputs, ddf_dvf_forward, hflag]

/-- Witness for C10 at a concrete input: with both labels absent the
assembler does not raise the dereference error. -/
theorem C10_label_deref_safe_witness :
    ddf_dvf_add_loss_metric
        { inputs := [], outputs := [], name := "m", losses := [], metrics := [] }
        (Tensor.input "d" [1, 2, 2, 2, 3]) (Tensor.input "g" [2, 2, 2, 3])
        (Tensor.input "f" [1, 2, 2, 2]) none (Tensor.input "p" [1, 2, 2, 2]) none
        { regularization := [("weight", 1)],
          dissimilarity_image := [("weight", 1)], dissimilarity_label := [] } ≠
      Except.error "TypeError: pred_fixed_label is None" :=
  (C10_label_deref_safe
    { inputs := [], outputs := [], name := "m", losses := [], metrics := [] }
    (Tensor.input "d" [1, 2, 2, 2, 3]) (Tensor.input "g" [2, 2, 2, 3])
    (Tensor.input "f" [1, 2, 2, 2]) none (Tensor.input "p" [1, 2, 2, 2]) none
    { regularization := [("weight", 1)], dissimilarity_image := [("weight", 1)],
      dissimilarity_label := [] } (by simp)).1

/-- C3: on a fresh model the assembler always attaches the weighted
regularization loss (mean displacement energy times the regularization
weight) with no guard on the weight's value, while the image
dissimilarity loss is attached exactly when the image weight is strictly
positive; in both cases the raw and weighted values are reported as
metrics (the image metrics exactly when its loss is attached). -/
theorem C3_reg_unguarded_image_gated (model : KerasModel)
    (ddf grid_fixed fixed_image : Tensor) (fixed_label : Option Tensor)
    (pred_fixed_image : Tensor) (pred_fixed_label : Option Tensor)
    (cfg : LossConfig) (wr wi : Rat)
    (hml : model.losses = []) (hmm : model.metrics = [])
    (hwr : dictGet "weight" cfg.regularization = some wr)
    (hwi : dictGet "weight" cfg.dissimilarity_image = some wi)
    (hpre : fixed_label.isSome = true → pred_fixed_label.isSome = true) :
    isOk (ddf_dvf_add_loss_metric model ddf grid_fixed fixed_image fixed_label
        pred_fixed_image pred_fixed_label cfg) = true ∧
    LossVal.smul (LossVal.reduceMean
        (LossVal.localDisplacementEnergy ddf cfg.regularization)) wr ∈
      lossesOf (ddf_dvf_add_loss_metric model ddf grid_fixed fixed_image
        fixed_label pred_fixed_image pred_fixed_label cfg) ∧
    (LossVal.smul (LossVal.reduceMean (LossVal.imageDissimilarity fixed_image
        pred_fixed_image cfg.dissimilarity_image)) wi ∈
      lossesOf (ddf_dvf_add_loss_metric model ddf grid_fixed fixed_image
        fixed_label pred_fixed_image pred_fixed_label cfg) ↔ 0 < wi) ∧
    ("loss/regularization", LossVal.reduceMean
        (LossVal.localDisplacementEnergy ddf cfg.regularization)) ∈
      metricsOf (ddf_dvf_add_loss_metric model ddf grid_fixed fixed_image
        fixed_label pred_fixed_image pred_fixed_label cfg) ∧
    ("loss/weighted_regularization", LossVal.smul (LossVal.reduceMean
        (LossVal.localDisplacementEnergy ddf cfg.regularization)) wr) ∈
      metricsOf (ddf_dvf_add_loss_metric model ddf grid_fixed fixed_image
        fixed_label pred_fixed_image pred_fixed_label cfg) ∧
    (("loss/image_dissimilarity", LossVal.reduceMean
        (LossVal.imageDissimilarity fixed_image pred_fixed_image
          cfg.dissimilarity_image)) ∈
      metricsOf (ddf_dvf_add_loss_metric model ddf grid_fixed fixed_image
        fixed_label pred_fixed_image pred_fixed_label cfg) ↔ 0 < wi) ∧
    (("loss/weighted_image_dissimilarity", LossVal.smul (LossVal.reduceMean
        (LossVal.imageDissimilarity fixed_image pred_fixed_image
          cfg.dissimilarity_image)) wi) ∈
      metricsOf (ddf_dvf_add_loss_metric model ddf grid_fixed fixed_image
        fixed_label pred_fixed_image pred_fixed_label cfg) ↔ 0 < wi) := by
  unfold ddf_dvf_add_loss_metric
  rw [hwr, hwi]
  by_cases hw : 0 < wi
  · cases hfl : fixed_label with
    | none =>
      simp [hw, add_loss, add_metric, lossesOf, metricsOf, isOk, hml, hmm]
    | some fl =>
      obtain ⟨pfl, hpfl⟩ := Option.isSome_iff_exists.mp (hpre (by simp [hfl]))
      subst hpfl
      simp [hw, add_loss, add_metric, lossesOf, metricsOf, isOk, hml, hmm]
  · cases hfl : fixed_label with
    | none =>
      simp [hw, add_loss, add_metric, lossesOf, metricsOf, isOk, hml, hmm]
    | some fl =>
      obtain ⟨pfl, hpfl⟩ := Option.isSome_iff_exists.mp (hpre (by simp [hfl]))
      subst hpfl
      simp [hw, add_loss, add_metric, lossesOf, metricsOf, isOk, hml, hmm]

/-- Witness for C3 at a concrete input with a negative regularization
weight and a zero image weight: the weighted regularization loss is
still attached. -/
theorem C3_reg_unguarded_image_gated_witness :
    LossVal.smul (LossVal.reduceMean
        (LossVal.localDisplacementEnergy (Tensor.input "d" [1, 2, 2, 2, 3])
          [("energy_weight", 2), ("weight", -1)])) (-1) ∈
      lossesOf (ddf_dvf_add_loss_metric
        { inputs := [], outputs := [], name := "m", losses := [], metrics := [] }
        (Tensor.input "d" [1, 2, 2, 2, 3]) (Tensor.input "g" [2, 2, 2, 3])
        (Tensor.input "f" [1, 2, 2, 2]) none (Tensor.input "p" [1, 2, 2, 2]) none
        { regularization := [("energy_weight", 2), ("weight", -1)],
          dissimilarity_image := [("weight", 0)], dissimilarity_label := [] }) :=
  (C3_reg_unguarded_image_gated
    { inputs := [], outputs := [], name := "m", losses := [], metrics := [] }
    (Tensor.input "d" [1, 2, 2, 2, 3]) (Tensor.input "g" [2, 2, 2, 3])
    (Tensor.input "f" [1, 2, 2, 2]) none (Tensor.input "p" [1, 2, 2, 2]) none
    { regularization := [("energy_weight", 2), ("weight", -1)],
      dissimilarity_image := [("weight", 0)], dissimilarity_label := [] }
    (-1) 0 rfl rfl rfl rfl (by simp)).2.1

/-- C4: on a fresh model the label dissimilarity loss and the diagnostic
metrics are attached exactly when `fixed_label` is present; the reported
weighted label dissimilarity is the very same value as the raw one (the
weight is folded into the dissimilarity function), the label loss is
attached with no weight gate, and the five diagnostics (binary Dice,
float Dice, centroid distance, and the two foreground proportions) are
metrics only, never losses. -/
theorem C4_label_loss_and_diagnostics (model : KerasModel)
    (ddf grid_fixed fixed_image : Tensor) (pred_fixed_image : Tensor)
    (pred_fixed_label : Option Tensor) (cfg : LossConfig) (wr wi : Rat)
    (hml : model.losses = []) (hmm : model.metrics = [])
    (hwr : dictGet "weight" cfg.regularization = some wr)
    (hwi : dictGet "weight" cfg.dissimilarity_image = some wi) :
    (isOk (ddf_dvf_add_loss_metric model ddf grid_fixed fixed_image none
        pred_fixed_image pred_fixed_label cfg) = true ∧
      (∀ d t p, LossVal.reduceMean (LossVal.labelDissimilarity d t p) ∉
        lossesOf (ddf_dvf_add_loss_metric model ddf grid_fixed fixed_image none
          pred_fixed_image pred_fixed_label cfg)) ∧
      (∀ v, ("loss/label_dissimilarity", v) ∉
        metricsOf (ddf_dvf_add_loss_metric model ddf grid_fixed fixed_image none
          pred_fixed_image pred_fixed_label cfg)) ∧
      (∀ v, ("metric/dice_binary", v) ∉
        metricsOf (ddf_dvf_add_loss_metric model ddf grid_fixed fixed_image none
          pred_fixed_image pred_fixed_label cfg)) ∧
      (∀ v, ("metric/tre", v) ∉
        metricsOf (ddf_dvf_add_loss_metric model ddf grid_fixed fixed_image none
          pred_fixed_image pred_fixed_label cfg))) ∧
    (∀ fl pfl,
      isOk (ddf_dvf_add_loss_metric model ddf grid_fixed fixed_image (some fl)
        pred_fixed_image (some pfl) cfg) = true ∧
      LossVal.reduceMean
          (LossVal.labelDissimilarity cfg.dissimilarity_label fl pfl) ∈
        lossesOf (ddf_dvf_add_loss_metric model ddf grid_fixed fixed_image
          (some fl) pred_fixed_image (some pfl) cfg) ∧
      ("loss/label_dissimilarity", LossVal.reduceMean
          (LossVal.labelDissimilarity cfg.dissimilarity_label fl pfl)) ∈
        metricsOf (ddf_dvf_add_loss_metric model ddf grid_fixed fixed_image
          (some fl) pred_fixed_image (some pfl) cfg) ∧
      ("loss/weighted_label_dissimilarity", LossVal.reduceMean
          (LossVal.labelDissimilarity cfg.dissimilarity_label fl pfl)) ∈
        metricsOf (ddf_dvf_add_loss_metric model ddf grid_fixed fixed_image
          (some fl) pred_fixed_image (some pfl) cfg) ∧
      ("metric/dice_binary", LossVal.diceScore fl pfl true) ∈
        metricsOf (ddf_dvf_add_loss_metric model ddf grid_fixed fixed_image
          (some fl) pred_fixed_image (some pfl) cfg) ∧
      ("metric/dice_float", LossVal.diceScore fl pfl false) ∈
        metricsOf (ddf_dvf_add_loss_metric model ddf grid_fixed fixed_image
          (some fl) pred_fixed_image (some pfl) cfg) ∧
      ("metric/tre", LossVal.centroidDistance fl pfl grid_fixed) ∈
        metricsOf (ddf_dvf_add_loss_metric model ddf grid_fixed fixed_image
          (some fl) pred_fixed_image (some pfl) cfg) ∧
      ("metric/foreground_label", LossVal.foregroundProportion fl) ∈
        metricsOf (ddf_dvf_add_loss_metric model ddf grid_fixed fixed_image
          (some fl) pred_fixed_image (some pfl) cfg) ∧
      ("metric/foreground_pred", LossVal.foregroundProportion pfl) ∈
        metricsOf (ddf_dvf_add_loss_metric model ddf grid_fixed fixed_image
          (some fl) pred_fixed_image (some pfl) cfg) ∧
      LossVal.diceScore fl pfl true ∉
        lossesOf (ddf_dvf_add_loss_metric model ddf grid_fixed fixed_image
          (some fl) pred_fixed_image (some pfl) cfg) ∧
      LossVal.diceScore fl pfl false ∉
        lossesOf (ddf_dvf_add_loss_metric model ddf grid_fixed fixed_image
          (some fl) pred_fixed_image (some pfl) cfg) ∧
      LossVal.centroidDistance fl pfl grid_fixed ∉
        lossesOf (ddf_dvf_add_loss_metric model ddf grid_fixed fixed_image
          (some fl) pred_fixed_image (some pfl) cfg) ∧
      LossVal.foregroundProportion fl ∉
        lossesOf (ddf_dvf_add_loss_metric model ddf grid_fixed fixed_image
          (some fl) pred_fixed_image (some pfl) cfg) ∧
      LossVal.foregroundProportion pfl ∉
        lossesOf (ddf_dvf_add_loss_metric model ddf grid_fixed fixed_image
          (some fl) pred_fixed_image (some pfl) cfg)) := by
  unfold ddf_dvf_add_loss_metric
  rw [hwr, hwi]
  by_cases hw : 0 < wi <;>
    simp [hw, add_loss, add_metric, lossesOf, metricsOf, isOk, hml, hmm]

/-- Witness for C4 at a concrete labeled input: the raw and weighted
label dissimilarity metrics carry the same value. -/
theorem C4_label_loss_and_diagnostics_witness :
    ("loss/weighted_label_dissimilarity", LossVal.reduceMean
        (LossVal.labelDissimilarity [("weight", 1)]
          (Tensor.input "fl" [1, 2, 2, 2]) (Tensor.input "pl" [1, 2, 2, 2]))) ∈
      metricsOf (ddf_dvf_add_loss_metric
        { inputs := [], outputs := [], name := "m", losses := [], metrics := [] }
        (Tensor.input "d" [1, 2, 2, 2, 3]) (Tensor.input "g" [2, 2, 2, 3])
        (Tensor.input "f" [1, 2, 2, 2]) (some (Tensor.input "fl" [1, 2, 2, 2]))
        (Tensor.input "p" [1, 2, 2, 2]) (some (Tensor.input "pl" [1, 2, 2, 2]))
        { regularization := [("weight", 1)], dissimilarity_image := [("weight", 1)],
          dissimilarity_label := [("weight", 1)] }) :=
  ((C4_label_loss_and_diagnostics
    { inputs := [], outputs := [], name := "m", losses := [], metrics := [] }
    (Tensor.input "d" [1, 2, 2, 2, 3]) (Tensor.input "g" [2, 2, 2, 3])
    (Tensor.input "f" [1, 2, 2, 2]) (Tensor.input "p" [1, 2, 2, 2]) none
    { regularization := [("weight", 1)], dissimilarity_image := [("weight", 1)],
      dissimilarity_label := [("weight", 1)] } 1 1 rfl rfl rfl rfl).2
    (Tensor.input "fl" [1, 2, 2, 2]) (Tensor.input "pl" [1, 2, 2, 2])).2.2.2.1

/-- C2: every successfully built model's output mapping contains "ddf"
always, contains "dvf" exactly when the configured method is "dvf", and
contains "pred_fixed_label" exactly in the labeled case; the input
mapping contains "moving_label" and "fixed_label" exactly in the labeled
case. -/
theorem C2_model_io_contract (moving_image_size fixed_image_size : List Nat)
    (index_size batch_size : Nat) (labeled : Bool)
    (mcfg : ModelConfig) (lcfg : LossConfig)
    (h : isOk (build_ddf_dvf_model moving_image_size fixed_image_size
      index_size labeled batch_size mcfg lcfg) = true) :
    hasKey "ddf" (outputsOf (build_ddf_dvf_model moving_image_size
      fixed_image_size index_size labeled batch_size mcfg lcfg)) ∧
    (hasKey "dvf" (outputsOf (build_ddf_dvf_model moving_image_size
      fixed_image_size index_size labeled batch_size mcfg lcfg)) ↔
        mcfg.method = "dvf") ∧
    (hasKey "pred_fixed_label" (outputsOf (build_ddf_dvf_model moving_image_size
      fixed_image_size index_size labeled batch_size mcfg lcfg)) ↔
        labeled = true) ∧
    (hasKey "moving_label" (inputsOf (build_ddf_dvf_model moving_image_size
      fixed_image_size index_size labeled batch_size mcfg lcfg)) ↔
        labeled = true) ∧
    (hasKey "fixed_label" (inputsOf (build_ddf_dvf_model moving_image_size
      fixed_image_size index_size labeled batch_size mcfg lcfg)) ↔
        labeled = true) := by
  cases hr : build_ddf_dvf_model moving_image_size fixed_image_size index_size
      labeled batch_size mcfg lcfg with
  | error e => rw [hr] at h; simp [isOk] at h
  | ok m2 =>
    simp only [build_ddf_dvf_model] at hr
    obtain ⟨hi, ho, -⟩ := add_loss_metric_keeps_io _ _ _ _ _ _ _ _ _ hr
    cases labeled <;> cases hflag : output_dvf_flag mcfg <;>
      simp only [build_inputs, ddf_dvf_forward, hflag, output_dvf_flag,
        beq_iff_eq, beq_eq_false_iff_ne, ne_eq] at hi ho hflag ⊢ <;>
      simp_all [hasKey, inputsOf, outputsOf, hflag, output_dvf_flag]

/-- Witness for C2 at a concrete input: a labeled dvf-mode build
succeeds and its output mapping contains the "dvf" key. -/
theorem C2_model_io_contract_witness :
    hasKey "dvf" (outputsOf (build_ddf_dvf_model [2, 2, 2] [2, 2, 2] 1 true 1
      { method := "dvf" }
      { regularization := [("weight", 1)], dissimilarity_image := [("weight", 1)],
        dissimilarity_label := [("weight", 1)] })) :=
  ((C2_model_io_contract [2, 2, 2] [2, 2, 2] 1 1 true { method := "dvf" }
    { regularization := [("weight", 1)], dissimilarity_image := [("weight", 1)],
      dissimilarity_label := [("weight", 1)] } (by rfl)).2.1).mpr rfl

end DeepReg
